import Mathlib

/-!
Shallow embedding of the provisioning scripts of the `aws_deployment`
repository (Python, boto3) and proofs about them.

Effects are modelled by an explicit state-and-trace monad `M σ`:
a computation takes a state `s : σ` and returns an `Except Exn` result,
the updated state, and a trace of observable events (stdout lines,
stderr lines, sleeps, recorded API calls).  Python exceptions become the
`Exn` sum type; a `try/except ClientError` block becomes `tryCatchM`
whose handler re-throws every non-`clientError` exception.  The AWS SDK
clients are passed in as records of `M σ` actions, mirroring the boto3
client objects the Python functions receive; concrete instantiations
model either the control plane itself (an in-memory record of resources)
or degenerate fake clients used to exercise specific error paths.
-/

/-- Python exceptions raised by the scripts: botocore `ClientError`
(carrying the provider error code and message), `IndexError`,
`NameError`/`UnboundLocalError`, `ValueError`, `RuntimeError`, and
`SystemExit`. -/
inductive Exn where
  | clientError (code : String) (msg : String)
  | indexError
  | nameError (var : String)
  | valueError (msg : String)
  | runtimeError (msg : String)
  | systemExit (exitCode : Nat)
deriving Repr, DecidableEq

/-- Observable events of a run: a line printed to stdout, a line printed
to stderr, a `time.sleep`, or a recorded provider API call (used by fake
clients that log which control-plane calls were made). -/
inductive Event where
  | out (line : String)
  | errOut (line : String)
  | sleep (seconds : Nat)
  | call (api : String)
deriving Repr, DecidableEq

/-- Result of running a computation: an `Except` value, the final state,
and the trace of events emitted. -/
structure MRes (σ α : Type) where
  result : Except Exn α
  state : σ
  trace : List Event
deriving Repr

theorem MRes.ext_iff' {σ α : Type} (a b : MRes σ α) :
    a = b ↔ a.result = b.result ∧ a.state = b.state ∧ a.trace = b.trace := by
  cases a; cases b; simp

/-- The effect monad of the embedding: state, exceptions (state preserved
on throw, as in Python), and an event trace. -/
def M (σ α : Type) : Type := σ → MRes σ α

def pureM {σ α : Type} (a : α) : M σ α := fun s => ⟨.ok a, s, []⟩

def bindM {σ α β : Type} (m : M σ α) (f : α → M σ β) : M σ β := fun s =>
  match m s with
  | ⟨.ok a, s1, t1⟩ =>
    let r := f a s1
    ⟨r.result, r.state, t1 ++ r.trace⟩
  | ⟨.error e, s1, t1⟩ => ⟨.error e, s1, t1⟩

instance : Monad (M σ) where
  pure := pureM
  bind := bindM

/-- `raise e` -/
def throwM {σ α : Type} (e : Exn) : M σ α := fun s => ⟨.error e, s, []⟩

/-- `try: m except: handler` — the handler sees the exception and the
state as mutated so far (Python state is not rolled back). -/
def tryCatchM {σ α : Type} (m : M σ α) (handler : Exn → M σ α) : M σ α := fun s =>
  match m s with
  | ⟨.ok a, s1, t1⟩ => ⟨.ok a, s1, t1⟩
  | ⟨.error e, s1, t1⟩ =>
    let r := handler e s1
    ⟨r.result, r.state, t1 ++ r.trace⟩

/-- `print(line)` -/
def printM {σ : Type} (line : String) : M σ Unit := fun s => ⟨.ok (), s, [.out line]⟩

/-- `print(line, file=sys.stderr)` -/
def eprintM {σ : Type} (line : String) : M σ Unit := fun s => ⟨.ok (), s, [.errOut line]⟩

/-- `time.sleep(seconds)` -/
def sleepM {σ : Type} (seconds : Nat) : M σ Unit := fun s => ⟨.ok (), s, [.sleep seconds]⟩

theorem bindM_eq (m : M σ α) (f : α → M σ β) (s : σ) :
    (m >>= f) s = match m s with
      | ⟨.ok a, s1, t1⟩ => let r := f a s1; ⟨r.result, r.state, t1 ++ r.trace⟩
      | ⟨.error e, s1, t1⟩ => ⟨.error e, s1, t1⟩ := rfl

/-! ## Security groups

Embedding of `ensure_security_group` from `REST_SRV_setup/create_REST.py`
(lines 111–156); the copy in `Airflow_setup/deploy_ec2_airflow.py`
(lines 136–177) has identical control flow (only port numbers and
message texts differ).  The boto3 EC2 client is a record of actions. -/

/-- One security group as the control plane stores it. -/
structure SG where
  groupId : String
  groupName : String
  vpcId : String
deriving Repr, DecidableEq

/-- The slice of the boto3 EC2 client that `ensure_security_group`
uses.  `create_security_group` returns the new `GroupId`;
`describe_security_groups` takes the group-name and vpc-id filter values
and returns the `SecurityGroups` list. -/
structure SgClient (σ : Type) where
  create_security_group : String → String → M σ String
  authorize_security_group_ingress : String → M σ Unit
  describe_security_groups : String → String → M σ (List SG)

/-- Outcome of an ensure: the resource was created by this invocation,
or an existing one was reused.  Carries the provider id. -/
inductive SgOutcome where
  | created (groupId : String)
  | reused (groupId : String)
deriving Repr, DecidableEq

def SgOutcome.groupId : SgOutcome → String
  | .created g => g
  | .reused g => g

/-- `ensure_security_group(ec2_client, group_name, vpc_id)`:
try to create the group and authorize its ingress rules; on a
`ClientError` with code `InvalidGroup.Duplicate`, describe by group-name
and vpc-id and take `groups["SecurityGroups"][0]` (an `IndexError` if
that list is empty); any other exception propagates. -/
def ensure_security_group {σ : Type} (c : SgClient σ)
    (group_name vpc_id : String) : M σ SgOutcome :=
  tryCatchM
    (do
      let sg_id ← c.create_security_group group_name vpc_id
      c.authorize_security_group_ingress sg_id
      printM ("Created security group " ++ group_name ++ " (" ++ sg_id ++ ")")
      pure (SgOutcome.created sg_id))
    (fun exc =>
      match exc with
      | .clientError code _ =>
        if code = "InvalidGroup.Duplicate" then do
          let groups ← c.describe_security_groups group_name vpc_id
          match groups.head? with
          | some g => do
            printM ("Security group " ++ group_name ++ " already exists (" ++
              g.groupId ++ "); reusing.")
            pure (SgOutcome.reused g.groupId)
          | none => throwM .indexError
        else throwM exc
      | _ => throwM exc)

/-! ### In-memory control-plane model for security groups -/

/-- Control-plane state for the EC2 security-group API: the stored
groups and a counter for minting fresh group ids. -/
structure Ec2State where
  groups : List SG
  nextSgNum : Nat
deriving Repr, DecidableEq

/-- Does a stored group match the (group-name, vpc-id) filter pair? -/
def sgMatches (group_name vpc_id : String) (g : SG) : Bool :=
  g.groupName == group_name && g.vpcId == vpc_id

/-- Control-plane `CreateSecurityGroup`: group name must be unique per
VPC; a duplicate raises `InvalidGroup.Duplicate`, otherwise a fresh id
is minted and the group stored. -/
def awsCreateSecurityGroup (group_name vpc_id : String) : M Ec2State String :=
  fun s =>
    if s.groups.any (sgMatches group_name vpc_id) then
      ⟨.error (.clientError "InvalidGroup.Duplicate"
        ("The security group " ++ group_name ++ " already exists for VPC " ++ vpc_id)),
       s, []⟩
    else
      let gid := "sg-" ++ toString s.nextSgNum
      ⟨.ok gid, ⟨s.groups ++ [⟨gid, group_name, vpc_id⟩], s.nextSgNum + 1⟩, []⟩

/-- Control-plane `AuthorizeSecurityGroupIngress`: succeeds. -/
def awsAuthorizeIngress (_sg_id : String) : M Ec2State Unit :=
  fun s => ⟨.ok (), s, []⟩

/-- Control-plane `DescribeSecurityGroups` with group-name and vpc-id
filters: returns exactly the stored groups matching both. -/
def awsDescribeSecurityGroups (group_name vpc_id : String) : M Ec2State (List SG) :=
  fun s => ⟨.ok (s.groups.filter (sgMatches group_name vpc_id)), s, []⟩

/-- The in-memory control-plane client for security groups. -/
def awsSgClient : SgClient Ec2State :=
  ⟨awsCreateSecurityGroup, awsAuthorizeIngress, awsDescribeSecurityGroups⟩

/-- The group a successful create stores for `(gn, vpc)` in state `s0`. -/
def mintedSG (s0 : Ec2State) (gn vpc : String) : SG :=
  ⟨"sg-" ++ toString s0.nextSgNum, gn, vpc⟩

/-- Claim C1: ensure is idempotent — if no group named `gn` exists in
`vpc`, the first `ensure_security_group` run returns `created` with the
minted id, and a second run on the resulting control-plane state returns
`reused` with the same id, leaving the state unchanged. -/
theorem ensure_security_group_idempotent (s0 : Ec2State) (gn vpc : String)
    (h : s0.groups.any (sgMatches gn vpc) = false) :
    ∃ t1 t2,
      ensure_security_group awsSgClient gn vpc s0 =
        ⟨.ok (.created (mintedSG s0 gn vpc).groupId),
         ⟨s0.groups ++ [mintedSG s0 gn vpc], s0.nextSgNum + 1⟩, t1⟩ ∧
      ensure_security_group awsSgClient gn vpc
          ⟨s0.groups ++ [mintedSG s0 gn vpc], s0.nextSgNum + 1⟩ =
        ⟨.ok (.reused (mintedSG s0 gn vpc).groupId),
         ⟨s0.groups ++ [mintedSG s0 gn vpc], s0.nextSgNum + 1⟩, t2⟩ := by
  refine ⟨[.out ("Created security group " ++ gn ++ " (" ++
      (mintedSG s0 gn vpc).groupId ++ ")")],
    [.out ("Security group " ++ gn ++ " already exists (" ++
      (mintedSG s0 gn vpc).groupId ++ "); reusing.")], ?_, ?_⟩
  · simp [ensure_security_group, tryCatchM, bindM, bind, pureM, pure, printM,
      awsSgClient, awsCreateSecurityGroup, awsAuthorizeIngress, mintedSG, h]
  · have hfil : s0.groups.filter (sgMatches gn vpc) = [] := by
      rw [List.filter_eq_nil_iff]
      intro a ha hp
      have hx : s0.groups.any (sgMatches gn vpc) = true :=
        List.any_eq_true.mpr ⟨a, ha, hp⟩
      rw [h] at hx
      exact Bool.false_ne_true hx
    simp [ensure_security_group, tryCatchM, bindM, bind, pureM, pure, printM,
      awsSgClient, awsCreateSecurityGroup, awsAuthorizeIngress,
      awsDescribeSecurityGroups, mintedSG, sgMatches, hfil]

theorem ensure_security_group_idempotent_witness :
    (⟨[], 0⟩ : Ec2State).groups.any (sgMatches "pf1-rest-sg" "vpc-1") = false ∧
    ∃ t1 t2,
      ensure_security_group awsSgClient "pf1-rest-sg" "vpc-1" ⟨[], 0⟩ =
        ⟨.ok (.created (mintedSG ⟨[], 0⟩ "pf1-rest-sg" "vpc-1").groupId),
         ⟨[] ++ [mintedSG ⟨[], 0⟩ "pf1-rest-sg" "vpc-1"], 0 + 1⟩, t1⟩ ∧
      ensure_security_group awsSgClient "pf1-rest-sg" "vpc-1"
          ⟨[] ++ [mintedSG ⟨[], 0⟩ "pf1-rest-sg" "vpc-1"], 0 + 1⟩ =
        ⟨.ok (.reused (mintedSG ⟨[], 0⟩ "pf1-rest-sg" "vpc-1").groupId),
         ⟨[] ++ [mintedSG ⟨[], 0⟩ "pf1-rest-sg" "vpc-1"], 0 + 1⟩, t2⟩ :=
  ⟨by decide,
   ensure_security_group_idempotent ⟨[], 0⟩ "pf1-rest-sg" "vpc-1" (by decide)⟩

/-- Fake EC2 client exhibiting the race of §4.2 step 3: create always
reports `InvalidGroup.Duplicate`, but the describe lookup returns an
empty `SecurityGroups` list. -/
def phantomSgClient : SgClient Unit :=
  ⟨fun group_name vpc_id =>
      throwM (.clientError "InvalidGroup.Duplicate"
        ("The security group " ++ group_name ++ " already exists for VPC " ++ vpc_id)),
   fun _ => pureM (),
   fun _ _ => pureM []⟩

/-- Claim C2 counterexample: on a client where create reports a
duplicate and the describe lookup returns an empty `SecurityGroups`
list, `ensure_security_group` crashes with an uncaught `IndexError`
from the subscript `groups["SecurityGroups"][0]` — it does not return a
classified Inconsistent failure. -/
theorem ensure_security_group_phantom_duplicate_raises :
    ensure_security_group phantomSgClient "pf1-rest-sg" "vpc-1" () =
      ⟨.error .indexError, (), []⟩ := by
  rfl

/-- Claim C2 as amended: for every client in which create raises the
duplicate-exists error and the subsequent lookup returns no security
group, `ensure_security_group` raises `IndexError` — it neither
returns a handle nor a classified failure. -/
theorem ensure_security_group_duplicate_not_found_raises {σ : Type}
    (c : SgClient σ) (gn vpc : String) (s s1 s2 : σ)
    (t1 t2 : List Event) (msg : String)
    (hcreate : c.create_security_group gn vpc s =
      ⟨.error (.clientError "InvalidGroup.Duplicate" msg), s1, t1⟩)
    (hdesc : c.describe_security_groups gn vpc s1 = ⟨.ok [], s2, t2⟩) :
    ensure_security_group c gn vpc s = ⟨.error .indexError, s2, t1 ++ t2⟩ := by
  simp [ensure_security_group, tryCatchM, bindM, bind, pure, pureM, throwM,
    printM, hcreate, hdesc]

theorem ensure_security_group_duplicate_not_found_raises_witness :
    phantomSgClient.create_security_group "pf1-rest-sg" "vpc-1" () =
      ⟨.error (.clientError "InvalidGroup.Duplicate"
        "The security group pf1-rest-sg already exists for VPC vpc-1"), (), []⟩ ∧
    phantomSgClient.describe_security_groups "pf1-rest-sg" "vpc-1" () =
      ⟨.ok [], (), []⟩ ∧
    ensure_security_group phantomSgClient "pf1-rest-sg" "vpc-1" () =
      ⟨.error .indexError, (), [] ++ []⟩ :=
  ⟨rfl, rfl,
   ensure_security_group_duplicate_not_found_raises phantomSgClient
     "pf1-rest-sg" "vpc-1" () () () [] []
     "The security group pf1-rest-sg already exists for VPC vpc-1" rfl rfl⟩

/-! ## Key pairs

Embeddings of `create_key_pair` from `REST_SRV_setup/create_REST.py`
(lines 60–87), `Airflow_setup/deploy_ec2_airflow.py` (lines 113–133) and
`ec2_instance/create_instance.py` (lines 66–88).  The first two re-raise
a non-duplicate `ClientError`; the third has no `raise` in its except
clause, so a non-duplicate `ClientError` is swallowed and control falls
through to `key_material = response["KeyMaterial"]` where `response` is
unbound, raising `NameError`/`UnboundLocalError`. -/

/-- Local filesystem model: a map from path to (content, mode). -/
def FsState : Type := String → Option (String × Nat)

def emptyFs : FsState := fun _ => none

/-- Creation mode of a plain `write_text` on a new file (umask 022). -/
def defaultFileMode : Nat := 0o644

/-- `Path.write_text`: overwrite keeps the existing mode, a fresh file
gets the default mode. -/
def fsWrite (p content : String) (fs : FsState) : FsState := fun q =>
  if q = p then
    some (content, match fs p with
      | some f => f.2
      | none => defaultFileMode)
  else fs q

/-- `Path.chmod(mode)`. -/
def fsChmod (p : String) (mode : Nat) (fs : FsState) : FsState := fun q =>
  if q = p then (fs q).map (fun f => (f.1, mode)) else fs q

def writeTextM (p content : String) : M FsState Unit :=
  fun fs => ⟨.ok (), fsWrite p content fs, []⟩

def chmodM (p : String) (mode : Nat) : M FsState Unit :=
  fun fs => ⟨.ok (), fsChmod p mode fs, []⟩

/-- `Path.exists()`. -/
def pathExistsM (p : String) : M FsState Bool :=
  fun fs => ⟨.ok (fs p).isSome, fs, []⟩

/-- How the `try/except` around `create_key_pair` can leave the
function: with the API response in hand, via the `return` inside the
except clause, or — in `create_instance.py` only — by falling off the
except clause without `response` ever being bound. -/
inductive KpTry where
  | gotResponse (material : String)
  | earlyReturn
  | fellThrough
deriving Repr, DecidableEq

/-- `create_key_pair(ec2_client, key_name, key_path)` from
`REST_SRV_setup/create_REST.py`: on `InvalidKeyPair.Duplicate` print,
warn to stderr if the local PEM is missing, and return; any other
`ClientError` is re-raised; on success write the key material to
`key_path` and chmod it to `0o600`. -/
def create_key_pair_rest (create_key_pair_api : String → M FsState String)
    (key_name key_path : String) : M FsState Unit := do
  let r ← tryCatchM
    (do
      let material ← create_key_pair_api key_name
      pure (KpTry.gotResponse material))
    (fun exc =>
      match exc with
      | .clientError code _ =>
        if code = "InvalidKeyPair.Duplicate" then do
          printM ("Key pair " ++ key_name ++ " already exists; reusing.")
          let ex ← pathExistsM key_path
          if ex then pure ()
          else eprintM ("WARNING: " ++ key_path ++
            " missing. Ensure you have the original private key.")
          pure KpTry.earlyReturn
        else throwM exc
      | _ => throwM exc)
  match r with
  | .gotResponse material => do
    writeTextM key_path material
    chmodM key_path 0o600
    printM ("Created key pair " ++ key_name ++ " and wrote PEM to " ++ key_path)
  | .earlyReturn => pure ()
  | .fellThrough => throwM (.nameError "response")

/-- `create_key_pair(ec2_client, key_name, key_path)` from
`Airflow_setup/deploy_ec2_airflow.py`: same control flow as the REST
version, with different messages. -/
def create_key_pair_airflow (create_key_pair_api : String → M FsState String)
    (key_name key_path : String) : M FsState Unit := do
  let r ← tryCatchM
    (do
      let material ← create_key_pair_api key_name
      pure (KpTry.gotResponse material))
    (fun exc =>
      match exc with
      | .clientError code _ =>
        if code = "InvalidKeyPair.Duplicate" then do
          printM ("Key pair " ++ key_name ++ " already exists; reusing.")
          let ex ← pathExistsM key_path
          if ex then pure ()
          else eprintM ("WARNING: " ++ key_path ++ " missing locally.")
          pure KpTry.earlyReturn
        else throwM exc
      | _ => throwM exc)
  match r with
  | .gotResponse material => do
    writeTextM key_path material
    chmodM key_path 0o600
    printM ("Wrote key pair to " ++ key_path)
  | .earlyReturn => pure ()
  | .fellThrough => throwM (.nameError "response")

/-- `create_key_pair(ec2_client, key_name, key_path)` from
`ec2_instance/create_instance.py`: the except clause returns on
`InvalidKeyPair.Duplicate` but has no `raise` for other codes, so a
non-duplicate `ClientError` falls through to the read of the unbound
local `response`. -/
def create_key_pair_instance (create_key_pair_api : String → M FsState String)
    (key_name key_path : String) : M FsState Unit := do
  let r ← tryCatchM
    (do
      let material ← create_key_pair_api key_name
      pure (KpTry.gotResponse material))
    (fun exc =>
      match exc with
      | .clientError code _ =>
        if code = "InvalidKeyPair.Duplicate" then do
          printM ("Key pair " ++ key_name ++ " already exists. Using existing key pair.")
          pure KpTry.earlyReturn
        else pure KpTry.fellThrough
      | _ => throwM exc)
  match r with
  | .gotResponse material => do
    writeTextM key_path material
    chmodM key_path 0o600
    printM ("Created key pair " ++ key_name ++ " and wrote private key to " ++ key_path)
  | .earlyReturn => pure ()
  | .fellThrough => throwM (.nameError "response")

/-- Fake EC2 client: `create_key_pair` succeeds, returning `material`. -/
def succKpClient (material : String) : String → M FsState String :=
  fun _ => pureM material

/-- Fake EC2 client: `create_key_pair` reports the key pair exists. -/
def dupKpClient : String → M FsState String :=
  fun key_name =>
    throwM (.clientError "InvalidKeyPair.Duplicate"
      ("The keypair " ++ key_name ++ " already exists."))

/-- Fake EC2 client: `create_key_pair` fails with a non-duplicate
provider error. -/
def deniedKpClient : String → M FsState String :=
  fun _ => throwM (.clientError "UnauthorizedOperation"
    "You are not authorized to perform this operation.")

/-- Claim C3 (code bug in `create_instance.py`): a `ClientError` other
than `InvalidKeyPair.Duplicate` from the create call is re-raised
unchanged by the REST and Airflow versions of `create_key_pair`, but the
`create_instance.py` version swallows it (its except clause has no
`raise`) and then raises `NameError` on the unbound local `response` —
the raw provider error does not propagate. -/
theorem create_key_pair_provider_error_paths :
    create_key_pair_instance deniedKpClient "pf1-ec2-key" "pf1-ec2-key.pem" emptyFs =
      ⟨.error (.nameError "response"), emptyFs, []⟩ ∧
    create_key_pair_rest deniedKpClient "pf1-rest-key" "pf1-rest-key.pem" emptyFs =
      ⟨.error (.clientError "UnauthorizedOperation"
        "You are not authorized to perform this operation."), emptyFs, []⟩ ∧
    create_key_pair_airflow deniedKpClient "pf1-airflow-key" "pf1-airflow-key.pem" emptyFs =
      ⟨.error (.clientError "UnauthorizedOperation"
        "You are not authorized to perform this operation."), emptyFs, []⟩ :=
  ⟨rfl, rfl, rfl⟩

/-- Claim C8: in all three `create_key_pair` versions, when the create
call succeeds the key material is written to `key_path` and that file is
chmodded to `0o600` before returning; when the provider reports a
duplicate (reuse), the filesystem is left untouched.  The final conjunct
checks that the written file indeed holds the key material with
owner-only mode. -/
theorem create_key_pair_artifact_permissions
    (key_name key_path material : String) (fs : FsState) :
    ((create_key_pair_rest (succKpClient material) key_name key_path fs).state =
        fsChmod key_path 0o600 (fsWrite key_path material fs) ∧
      (create_key_pair_rest (succKpClient material) key_name key_path fs).result = .ok () ∧
      (create_key_pair_rest dupKpClient key_name key_path fs).state = fs ∧
      (create_key_pair_rest dupKpClient key_name key_path fs).result = .ok ()) ∧
    ((create_key_pair_airflow (succKpClient material) key_name key_path fs).state =
        fsChmod key_path 0o600 (fsWrite key_path material fs) ∧
      (create_key_pair_airflow (succKpClient material) key_name key_path fs).result = .ok () ∧
      (create_key_pair_airflow dupKpClient key_name key_path fs).state = fs ∧
      (create_key_pair_airflow dupKpClient key_name key_path fs).result = .ok ()) ∧
    ((create_key_pair_instance (succKpClient material) key_name key_path fs).state =
        fsChmod key_path 0o600 (fsWrite key_path material fs) ∧
      (create_key_pair_instance (succKpClient material) key_name key_path fs).result = .ok () ∧
      (create_key_pair_instance dupKpClient key_name key_path fs).state = fs ∧
      (create_key_pair_instance dupKpClient key_name key_path fs).result = .ok ()) ∧
    fsChmod key_path 0o600 (fsWrite key_path material fs) key_path =
      some (material, 0o600) := by
  refine ⟨⟨rfl, rfl, ?_, ?_⟩, ⟨rfl, rfl, ?_, ?_⟩, ⟨rfl, rfl, rfl, rfl⟩, ?_⟩
  · rcases hfe : fs key_path with _ | f <;>
      simp [create_key_pair_rest, dupKpClient, tryCatchM, bindM, bind, pure,
        pureM, throwM, printM, eprintM, pathExistsM, hfe]
  · rcases hfe : fs key_path with _ | f <;>
      simp [create_key_pair_rest, dupKpClient, tryCatchM, bindM, bind, pure,
        pureM, throwM, printM, eprintM, pathExistsM, hfe]
  · rcases hfe : fs key_path with _ | f <;>
      simp [create_key_pair_airflow, dupKpClient, tryCatchM, bindM, bind, pure,
        pureM, throwM, printM, eprintM, pathExistsM, hfe]
  · rcases hfe : fs key_path with _ | f <;>
      simp [create_key_pair_airflow, dupKpClient, tryCatchM, bindM, bind, pure,
        pureM, throwM, printM, eprintM, pathExistsM, hfe]
  · simp [fsChmod, fsWrite]

/-! ## S3 buckets

Embeddings of `create_bucket` from `S3_setup/create_bucket.py`
(lines 28–42) and `ensure_bucket` from
`Airflow_setup/deploy_ec2_airflow.py` (lines 68–84). -/

/-- The keyword arguments passed to the boto3 `create_bucket` call: the
bucket name, and the `LocationConstraint` of the
`CreateBucketConfiguration` entry when present. -/
structure CreateBucketParams where
  bucket : String
  createBucketConfiguration : Option String
deriving Repr, DecidableEq

/-- The slice of the boto3 S3 client used by the two functions. -/
structure S3Client (σ : Type) where
  head_bucket : String → M σ Unit
  create_bucket : CreateBucketParams → M σ Unit

/-- `create_bucket(bucket_name, region)` from `S3_setup/create_bucket.py`:
adds `CreateBucketConfiguration` only when the region is not
`us-east-1`; any `ClientError` from the create call is printed to stderr
and turned into `SystemExit(1)`. -/
def create_bucket_script {σ : Type} (c : S3Client σ)
    (bucket_name region : String) : M σ Unit := do
  let params : CreateBucketParams :=
    ⟨bucket_name, if region ≠ "us-east-1" then some region else none⟩
  tryCatchM (c.create_bucket params)
    (fun exc =>
      match exc with
      | .clientError code msg => do
        eprintM ("Error creating bucket: " ++ code ++ ": " ++ msg)
        throwM (.systemExit 1)
      | _ => throwM exc)
  printM ("S3 bucket " ++ bucket_name ++ " created in region " ++ region ++ ".")

/-- `ensure_bucket(s3_client, bucket_name, region)` from
`Airflow_setup/deploy_ec2_airflow.py`: `head_bucket` first; if it
succeeds the bucket exists and the function returns; a `ClientError`
with code other than `404`/`NoSuchBucket` is re-raised; otherwise the
bucket is created, with the same region-conditional configuration. -/
def ensure_bucket {σ : Type} (c : S3Client σ)
    (bucket_name region : String) : M σ Unit := do
  let found ← tryCatchM
    (do
      c.head_bucket bucket_name
      printM ("S3 bucket " ++ bucket_name ++ " already exists.")
      pure true)
    (fun exc =>
      match exc with
      | .clientError code _ =>
        if code = "404" ∨ code = "NoSuchBucket" then pure false else throwM exc
      | _ => throwM exc)
  if found then pure ()
  else do
    let params : CreateBucketParams :=
      ⟨bucket_name, if region ≠ "us-east-1" then some region else none⟩
    c.create_bucket params
    printM ("Created S3 bucket " ++ bucket_name ++ ".")

/-- Fake S3 client that records every `create_bucket` call's parameters
in the state; the bucket does not exist (`head_bucket` returns 404). -/
def recordingS3Client : S3Client (List CreateBucketParams) :=
  ⟨fun bucket_name => throwM (.clientError "404" ("Not Found: " ++ bucket_name)),
   fun params => fun calls => ⟨.ok (), calls ++ [params], [.call "create_bucket"]⟩⟩

/-- Fake S3 client for an already-owned bucket: `head_bucket` succeeds,
and `create_bucket` reports `BucketAlreadyOwnedByYou`. -/
def ownedS3Client : S3Client Unit :=
  ⟨fun _ => pureM (),
   fun _ => throwM (.clientError "BucketAlreadyOwnedByYou"
     "Your previous request to create the named bucket succeeded and you already own it.")⟩

/-- Claim C10: in both `create_bucket` and `ensure_bucket` the create
call carries a `CreateBucketConfiguration` with `LocationConstraint`
equal to the region exactly when the region is not `us-east-1`; for
`us-east-1` only the bucket name is passed. -/
theorem create_bucket_region_conditional (bucket_name region : String) :
    (create_bucket_script recordingS3Client bucket_name region []).state =
      [⟨bucket_name, if region ≠ "us-east-1" then some region else none⟩] ∧
    (ensure_bucket recordingS3Client bucket_name region []).state =
      [⟨bucket_name, if region ≠ "us-east-1" then some region else none⟩] ∧
    ((if region ≠ "us-east-1" then some region else none) = some region ↔
      region ≠ "us-east-1") ∧
    ((if region ≠ "us-east-1" then some region else none) = (none : Option String) ↔
      region = "us-east-1") := by
  refine ⟨rfl, rfl, ?_, ?_⟩
  · by_cases h : region = "us-east-1" <;> simp [h]
  · by_cases h : region = "us-east-1" <;> simp [h]

/-- Claim C4 counterexample: the standalone S3 bucket creation script
does fail when the bucket already exists — a
`BucketAlreadyOwnedByYou` error from the create call is printed to
stderr and becomes `SystemExit(1)` (non-zero exit), not a recovery. -/
theorem create_bucket_script_duplicate_exits_nonzero :
    create_bucket_script ownedS3Client "my-demo-bucket-123" "eu-central-1" () =
      ⟨.error (.systemExit 1), (),
       [.errOut ("Error creating bucket: BucketAlreadyOwnedByYou: " ++
         "Your previous request to create the named bucket succeeded and you already own it.")]⟩ := by
  rfl

/-! ## IAM role, instance profile, poller, and pipeline

Embeddings from `ec2_instance/assign_s3_role.py`:
`ensure_role_and_profile` (lines 45–119), `wait_for_instance_profile`
(lines 122–137), `attach_profile_to_instance` (lines 140–145) and `main`
(lines 148–167); and `ensure_iam_role_and_profile` from
`Airflow_setup/deploy_ec2_airflow.py` (lines 180–249). -/

/-- One statement of an inline role policy (effect, actions, resource). -/
structure PolicyStmt where
  effect : String
  actions : List String
  resource : String
deriving Repr, DecidableEq

/-- The trust-policy statement both scripts attach to the role. -/
structure AssumeStmt where
  service : String
  action : String
deriving Repr, DecidableEq

def assume_policy : AssumeStmt := ⟨"ec2.amazonaws.com", "sts:AssumeRole"⟩

/-- The slice of the boto3 IAM client used by the scripts. -/
structure IamClient (σ : Type) where
  create_role : String → AssumeStmt → M σ Unit
  put_role_policy : String → String → List PolicyStmt → M σ Unit
  create_instance_profile : String → M σ Unit
  add_role_to_instance_profile : String → String → M σ Unit
  get_instance_profile : String → M σ String

/-- `ensure_role_and_profile(iam_client, role_name, profile_name,
bucket_name)` from `ec2_instance/assign_s3_role.py`: create-or-reuse the
role (tolerating `EntityAlreadyExists`), put the bucket access policy,
create-or-reuse the instance profile (tolerating `EntityAlreadyExists`),
and attach the role to the profile, tolerating exactly `LimitExceeded`
(profile already has a role) with a printed notice. -/
def ensure_role_and_profile {σ : Type} (c : IamClient σ)
    (role_name profile_name bucket_name : String) : M σ String := do
  tryCatchM
    (do
      c.create_role role_name assume_policy
      printM ("Created IAM role " ++ role_name ++ "."))
    (fun exc =>
      match exc with
      | .clientError code _ =>
        if code ≠ "EntityAlreadyExists" then throwM exc
        else printM ("IAM role " ++ role_name ++ " already exists; reusing.")
      | _ => throwM exc)
  let policy_document : List PolicyStmt :=
    [⟨"Allow", ["s3:ListBucket"], "arn:aws:s3:::" ++ bucket_name⟩,
     ⟨"Allow", ["s3:GetObject", "s3:PutObject", "s3:DeleteObject"],
      "arn:aws:s3:::" ++ bucket_name ++ "/*"⟩]
  let policy_name := role_name ++ "-s3-access"
  c.put_role_policy role_name policy_name policy_document
  tryCatchM
    (do
      c.create_instance_profile profile_name
      printM ("Created instance profile " ++ profile_name ++ "."))
    (fun exc =>
      match exc with
      | .clientError code _ =>
        if code ≠ "EntityAlreadyExists" then throwM exc
        else printM ("Instance profile " ++ profile_name ++ " already exists; reusing.")
      | _ => throwM exc)
  tryCatchM
    (do
      c.add_role_to_instance_profile profile_name role_name
      printM ("Attached role " ++ role_name ++ " to profile " ++ profile_name ++ "."))
    (fun exc =>
      match exc with
      | .clientError code _ =>
        if code ≠ "LimitExceeded" then throwM exc
        else printM ("Instance profile " ++ profile_name ++
          " already has a role; using existing attachment.")
      | _ => throwM exc)
  pure profile_name

/-- `ensure_iam_role_and_profile(iam_client, role_name, bucket_name)`
from `Airflow_setup/deploy_ec2_airflow.py`: same create-or-reuse shape,
profile named `<role_name>-profile`, read-only object policy; its
attach step tolerates exactly `EntityAlreadyExists` and — unlike the
assign-role script — prints nothing in that case. -/
def ensure_iam_role_and_profile {σ : Type} (c : IamClient σ)
    (role_name bucket_name : String) : M σ String := do
  tryCatchM
    (do
      c.create_role role_name assume_policy
      printM ("Created IAM role " ++ role_name ++ "."))
    (fun exc =>
      match exc with
      | .clientError code _ =>
        if code ≠ "EntityAlreadyExists" then throwM exc
        else printM ("IAM role " ++ role_name ++ " already exists; reusing.")
      | _ => throwM exc)
  let policy_document : List PolicyStmt :=
    [⟨"Allow", ["s3:ListBucket"], "arn:aws:s3:::" ++ bucket_name⟩,
     ⟨"Allow", ["s3:GetObject"], "arn:aws:s3:::" ++ bucket_name ++ "/*"⟩]
  let policy_name := role_name ++ "-s3-access"
  c.put_role_policy role_name policy_name policy_document
  let profile_name := role_name ++ "-profile"
  tryCatchM
    (do
      c.create_instance_profile profile_name
      printM ("Created instance profile " ++ profile_name ++ "."))
    (fun exc =>
      match exc with
      | .clientError code _ =>
        if code ≠ "EntityAlreadyExists" then throwM exc
        else printM ("Instance profile " ++ profile_name ++ " already exists; reusing.")
      | _ => throwM exc)
  tryCatchM
    (do
      c.add_role_to_instance_profile profile_name role_name
      printM ("Attached role " ++ role_name ++ " to profile " ++ profile_name ++ "."))
    (fun exc =>
      match exc with
      | .clientError code _ =>
        if code ≠ "EntityAlreadyExists" then throwM exc
        else pure ()
      | _ => throwM exc)
  pure profile_name

/-- The loop body of `wait_for_instance_profile`, by remaining
iterations: `rem + 1` remaining corresponds to loop index
`attempt = attempts - rem - 1`, so `attempt == attempts - 1` is
`rem = 0`; falling off the loop (`rem = 0` reached with zero attempts)
is the final unconditional `raise`. -/
def waitLoop {σ : Type} (get : String → M σ String)
    (profile_name : String) (attempts delay : Nat) : Nat → M σ String
  | 0 => throwM (.runtimeError ("Instance profile " ++ profile_name ++ " not available."))
  | rem + 1 =>
    tryCatchM (get profile_name)
      (fun exc =>
        match exc with
        | .clientError code _ =>
          if code ≠ "NoSuchEntity" then throwM exc
          else if rem = 0 then
            throwM (.runtimeError ("Instance profile " ++ profile_name ++
              " not available after " ++ toString attempts ++ " checks."))
          else do
            printM ("Instance profile " ++ profile_name ++
              " not yet available; waiting " ++ toString delay ++ " seconds...")
            sleepM delay
            waitLoop get profile_name attempts delay rem
        | _ => throwM exc)

/-- `wait_for_instance_profile(iam_client, profile_name, attempts,
delay)` from `ec2_instance/assign_s3_role.py`: poll
`get_instance_profile` up to `attempts` times, sleeping `delay` seconds
between polls; return the profile ARN on success; re-raise any
`ClientError` other than `NoSuchEntity`; raise `RuntimeError` once the
last attempt has failed. -/
def wait_for_instance_profile {σ : Type} (get : String → M σ String)
    (profile_name : String) (attempts delay : Nat) : M σ String :=
  waitLoop get profile_name attempts delay attempts

/-- The slice of the boto3 EC2 client used by
`attach_profile_to_instance`. -/
structure Ec2AssocClient (σ : Type) where
  associate_iam_instance_profile : String → String → M σ Unit

/-- `attach_profile_to_instance(ec2_client, instance_id, profile_arn)`. -/
def attach_profile_to_instance {σ : Type} (c : Ec2AssocClient σ)
    (instance_id profile_arn : String) : M σ Unit := do
  c.associate_iam_instance_profile profile_arn instance_id
  printM ("Associated instance profile with EC2 instance " ++ instance_id ++ ".")

/-- The `try` body plus `except (ClientError, RuntimeError)` handler of
`main()` in `ec2_instance/assign_s3_role.py`: ensure role and profile,
wait for the profile (default 2 attempts, 30 s delay), attach it to the
instance; on `ClientError` or `RuntimeError` print a diagnostic to
stderr and exit with status 1. -/
def assign_s3_role_main {σ : Type} (iam : IamClient σ) (ec2 : Ec2AssocClient σ)
    (instance_id bucket_name role_name profile_name : String) : M σ Unit := do
  tryCatchM
    (do
      let profile_name ← ensure_role_and_profile iam role_name profile_name bucket_name
      let profile_arn ← wait_for_instance_profile iam.get_instance_profile profile_name 2 30
      attach_profile_to_instance ec2 instance_id profile_arn)
    (fun exc =>
      match exc with
      | .clientError code msg => do
        eprintM ("AWS error: " ++ code ++ ": " ++ msg)
        throwM (.systemExit 1)
      | .runtimeError msg => do
        eprintM ("AWS error: " ++ msg)
        throwM (.systemExit 1)
      | _ => throwM exc)
  printM "S3 access role assigned successfully."

/-! ### Poller scenarios (state counts `get_instance_profile` calls) -/

/-- Fake IAM lookup that never finds the profile: every call raises
`NoSuchEntity` and bumps the call counter. -/
def neverFoundGet : String → M Nat String :=
  fun profile_name => fun n =>
    ⟨.error (.clientError "NoSuchEntity"
      ("Instance Profile " ++ profile_name ++ " cannot be found.")), n + 1, []⟩

/-- Fake IAM lookup that finds the profile at once, returning `arn`. -/
def foundGet (arn : String) : String → M Nat String :=
  fun _ => fun n => ⟨.ok arn, n + 1, []⟩

/-- Fake IAM lookup that fails with a non-`NoSuchEntity` error. -/
def deniedGet : String → M Nat String :=
  fun _ => fun n =>
    ⟨.error (.clientError "AccessDenied"
      "User is not authorized to perform iam:GetInstanceProfile."), n + 1, []⟩

/-- The events one unsuccessful non-final poll emits: the waiting notice
and the fixed-delay sleep. -/
def waitPollEvents (profile_name : String) (delay : Nat) : List Event :=
  [.out ("Instance profile " ++ profile_name ++
    " not yet available; waiting " ++ toString delay ++ " seconds..."),
   .sleep delay]

/-- The timeout message raised after the final failed poll. -/
def waitTimeoutMsg (profile_name : String) (attempts : Nat) : String :=
  "Instance profile " ++ profile_name ++ " not available after " ++
    toString attempts ++ " checks."

theorem waitLoop_neverFound (profile_name : String) (attempts delay : Nat) :
    ∀ rem n, waitLoop neverFoundGet profile_name attempts delay (rem + 1) n =
      ⟨.error (.runtimeError (waitTimeoutMsg profile_name attempts)), n + (rem + 1),
       (List.replicate rem (waitPollEvents profile_name delay)).flatten⟩ := by
  intro rem
  induction rem with
  | zero =>
    intro n
    simp [waitLoop, neverFoundGet, tryCatchM, throwM, waitTimeoutMsg]
  | succ k ih =>
    intro n
    have hstep : waitLoop neverFoundGet profile_name attempts delay (k + 1 + 1) n =
        ⟨(waitLoop neverFoundGet profile_name attempts delay (k + 1) (n + 1)).result,
         (waitLoop neverFoundGet profile_name attempts delay (k + 1) (n + 1)).state,
         waitPollEvents profile_name delay ++
           (waitLoop neverFoundGet profile_name attempts delay (k + 1) (n + 1)).trace⟩ := rfl
    rw [hstep, ih (n + 1)]
    simp [waitPollEvents, List.replicate_succ]
    omega

/-- Claim C5: with a lookup that never finds the profile,
`wait_for_instance_profile` makes exactly `attempts` calls, sleeping the
fixed delay between consecutive polls, and then raises the timeout
`RuntimeError`; a successful poll returns the ARN immediately after one
call; a lookup error other than `NoSuchEntity` propagates after one
call. -/
theorem wait_for_instance_profile_poll_bound (profile_name arn : String)
    (attempts delay : Nat) (h : 1 ≤ attempts) :
    wait_for_instance_profile neverFoundGet profile_name attempts delay 0 =
      ⟨.error (.runtimeError (waitTimeoutMsg profile_name attempts)), attempts,
       (List.replicate (attempts - 1) (waitPollEvents profile_name delay)).flatten⟩ ∧
    wait_for_instance_profile (foundGet arn) profile_name attempts delay 0 =
      ⟨.ok arn, 1, []⟩ ∧
    wait_for_instance_profile deniedGet profile_name attempts delay 0 =
      ⟨.error (.clientError "AccessDenied"
        "User is not authorized to perform iam:GetInstanceProfile."), 1, []⟩ := by
  obtain ⟨rem, rfl⟩ : ∃ rem, attempts = rem + 1 :=
    ⟨attempts - 1, by omega⟩
  refine ⟨?_, ?_, ?_⟩
  · have hmain := waitLoop_neverFound profile_name (rem + 1) delay rem 0
    simpa [wait_for_instance_profile] using hmain
  · simp [wait_for_instance_profile, waitLoop, foundGet, tryCatchM]
  · simp [wait_for_instance_profile, waitLoop, deniedGet, tryCatchM, throwM]

theorem wait_for_instance_profile_poll_bound_witness :
    wait_for_instance_profile neverFoundGet "pf1-ec2-s3-profile" 2 30 0 =
      ⟨.error (.runtimeError (waitTimeoutMsg "pf1-ec2-s3-profile" 2)), 2,
       (List.replicate (2 - 1) (waitPollEvents "pf1-ec2-s3-profile" 30)).flatten⟩ ∧
    wait_for_instance_profile (foundGet "arn:aws:iam::1:instance-profile/p")
        "pf1-ec2-s3-profile" 2 30 0 =
      ⟨.ok "arn:aws:iam::1:instance-profile/p", 1, []⟩ ∧
    wait_for_instance_profile deniedGet "pf1-ec2-s3-profile" 2 30 0 =
      ⟨.error (.clientError "AccessDenied"
        "User is not authorized to perform iam:GetInstanceProfile."), 1, []⟩ :=
  wait_for_instance_profile_poll_bound "pf1-ec2-s3-profile"
    "arn:aws:iam::1:instance-profile/p" 2 30 (by decide)

/-! ### Pipeline scenarios -/

/-- IAM client for the eventual-consistency scenario: every write
succeeds, but `get_instance_profile` always reports `NoSuchEntity`
(the profile is never yet visible to the lookup).  The `Nat` state is
untouched; it counts `associate_iam_instance_profile` calls. -/
def ecIamClient : IamClient Nat :=
  ⟨fun _ _ => pureM (), fun _ _ _ => pureM (), fun _ => pureM (),
   fun _ _ => pureM (),
   fun profile_name => throwM (.clientError "NoSuchEntity"
     ("Instance Profile " ++ profile_name ++ " cannot be found."))⟩

/-- IAM client whose `create_role` is denied outright; its
`get_instance_profile` bumps the shared call counter, so a final count
of zero shows the wait step never polled. -/
def deniedIamClient : IamClient Nat :=
  ⟨fun _ _ => throwM (.clientError "AccessDenied"
     "User is not authorized to perform iam:CreateRole."),
   fun _ _ _ => pureM (), fun _ => pureM (), fun _ _ => pureM (),
   fun _ => fun n =>
     ⟨.error (.clientError "NoSuchEntity" "not found"), n + 1, []⟩⟩

/-- EC2 client whose associate call bumps the call counter and logs a
`call` event, so the trace and final state show whether the attach step
ever ran. -/
def loggingAssocClient : Ec2AssocClient Nat :=
  ⟨fun _ _ => fun n =>
    ⟨.ok (), n + 1, [.call "associate_iam_instance_profile"]⟩⟩

/-- The full trace of `assign_s3_role_main` when the availability wait
times out: the three ensure prints, one waiting notice and sleep
(attempts = 2), and the stderr diagnostic.  No associate call appears. -/
def assignFailTrace (role_name profile_name : String) : List Event :=
  [.out ("Created IAM role " ++ role_name ++ "."),
   .out ("Created instance profile " ++ profile_name ++ "."),
   .out ("Attached role " ++ role_name ++ " to profile " ++ profile_name ++ "."),
   .out ("Instance profile " ++ profile_name ++
     " not yet available; waiting " ++ toString 30 ++ " seconds..."),
   .sleep 30,
   .errOut ("AWS error: " ++ waitTimeoutMsg profile_name 2)]

/-- Claim C6: the role-assignment pipeline is fail-fast.  When the
availability wait fails, `associate_iam_instance_profile` is never
invoked (the counter stays 0 and no `call` event is traced), the process
exits with status 1, and a diagnostic goes to stderr; when the first
step fails with a provider error, neither the wait nor the attach step
runs and the process exits with status 1 after the stderr diagnostic. -/
theorem assign_s3_role_fail_fast
    (instance_id bucket_name role_name profile_name : String) :
    (assign_s3_role_main ecIamClient loggingAssocClient
        instance_id bucket_name role_name profile_name 0 =
      ⟨.error (.systemExit 1), 0, assignFailTrace role_name profile_name⟩) ∧
    (assignFailTrace role_name profile_name).countP
      (fun e => match e with | .call _ => true | _ => false) = 0 ∧
    Event.errOut ("AWS error: " ++ waitTimeoutMsg profile_name 2) ∈
      assignFailTrace role_name profile_name ∧
    (assign_s3_role_main deniedIamClient loggingAssocClient
        instance_id bucket_name role_name profile_name 0 =
      ⟨.error (.systemExit 1), 0,
       [.errOut "AWS error: AccessDenied: User is not authorized to perform iam:CreateRole."]⟩) := by
  refine ⟨rfl, ?_, ?_, rfl⟩
  · simp [assignFailTrace, List.countP_cons]
  · simp [assignFailTrace]

/-! ### Attach-step tolerance scenarios -/

/-- IAM client where everything succeeds except
`add_role_to_instance_profile`, which raises the given error. -/
def attachErrIamClient (code msg : String) : IamClient Unit :=
  ⟨fun _ _ => pureM (), fun _ _ _ => pureM (), fun _ => pureM (),
   fun _ _ => throwM (.clientError code msg),
   fun _ => pureM "arn"⟩

/-- Claim C7 counterexample: in the Airflow pipeline the tolerated
`EntityAlreadyExists` at the attach step is swallowed silently — the
run succeeds but its full trace holds only the two creation lines, no
warning about the attachment. -/
theorem ensure_iam_role_and_profile_silent_tolerance :
    ensure_iam_role_and_profile
        (attachErrIamClient "EntityAlreadyExists"
          "Cannot exceed quota for InstanceProfilesPerRole.")
        "pf1-airflow-ec2-role" "deploy-dag-1234" () =
      ⟨.ok "pf1-airflow-ec2-role-profile", (),
       [.out "Created IAM role pf1-airflow-ec2-role.",
        .out "Created instance profile pf1-airflow-ec2-role-profile."]⟩ := by
  rfl

/-- Claim C7 as amended: each pipeline's attach step tolerates exactly
one designated already-attached error code and continues —
`LimitExceeded` with a printed notice in `assign_s3_role.py`,
`EntityAlreadyExists` silently in `deploy_ec2_airflow.py` — while any
other `ClientError` code at that step propagates. -/
theorem attach_step_tolerance (role_name profile_name bucket_name : String) :
    ((ensure_role_and_profile
        (attachErrIamClient "LimitExceeded"
          "Cannot exceed quota for InstanceProfilesPerRole.")
        role_name profile_name bucket_name ()).result = .ok profile_name ∧
      Event.out ("Instance profile " ++ profile_name ++
          " already has a role; using existing attachment.") ∈
        (ensure_role_and_profile
          (attachErrIamClient "LimitExceeded"
            "Cannot exceed quota for InstanceProfilesPerRole.")
          role_name profile_name bucket_name ()).trace) ∧
    (ensure_iam_role_and_profile
        (attachErrIamClient "EntityAlreadyExists" "Role already attached.")
        role_name bucket_name ()).result = .ok (role_name ++ "-profile") ∧
    (∀ code msg, code ≠ "LimitExceeded" →
      (ensure_role_and_profile (attachErrIamClient code msg)
        role_name profile_name bucket_name ()).result =
          .error (.clientError code msg)) ∧
    (∀ code msg, code ≠ "EntityAlreadyExists" →
      (ensure_iam_role_and_profile (attachErrIamClient code msg)
        role_name bucket_name ()).result = .error (.clientError code msg)) := by
  refine ⟨⟨rfl, ?_⟩, rfl, ?_, ?_⟩
  · simp [ensure_role_and_profile, attachErrIamClient, tryCatchM, bindM, bind,
      pure, pureM, throwM, printM]
  · intro code msg h
    simp [ensure_role_and_profile, attachErrIamClient, tryCatchM, bindM, bind,
      pure, pureM, throwM, printM, h]
  · intro code msg h
    simp [ensure_iam_role_and_profile, attachErrIamClient, tryCatchM, bindM, bind,
      pure, pureM, throwM, printM, h]

theorem attach_step_tolerance_witness :
    ("AccessDenied" : String) ≠ "LimitExceeded" ∧
    ("AccessDenied" : String) ≠ "EntityAlreadyExists" ∧
    (ensure_role_and_profile (attachErrIamClient "AccessDenied" "denied")
      "pf1-ec2-s3-role" "pf1-ec2-s3-profile" "bkt" ()).result =
        .error (.clientError "AccessDenied" "denied") ∧
    (ensure_iam_role_and_profile (attachErrIamClient "AccessDenied" "denied")
      "pf1-airflow-ec2-role" "bkt" ()).result =
        .error (.clientError "AccessDenied" "denied") :=
  ⟨by decide, by decide,
   (attach_step_tolerance "pf1-ec2-s3-role" "pf1-ec2-s3-profile" "bkt").2.2.1
     "AccessDenied" "denied" (by decide),
   (attach_step_tolerance "pf1-airflow-ec2-role" "pf1-ec2-s3-profile" "bkt").2.2.2
     "AccessDenied" "denied" (by decide)⟩

/-! ### Duplicate recovery across routines -/

/-- Fake EC2 client: the group exists (create reports duplicate) and the
describe lookup finds it. -/
def dupFoundSgClient : SgClient Unit :=
  ⟨fun group_name vpc_id =>
      throwM (.clientError "InvalidGroup.Duplicate"
        ("The security group " ++ group_name ++ " already exists for VPC " ++ vpc_id)),
   fun _ => pureM (),
   fun group_name vpc_id => pureM [⟨"sg-existing", group_name, vpc_id⟩]⟩

/-- IAM client where role, instance profile and attachment all already
exist, reporting the codes the assign-role script tolerates. -/
def allDupIamClient : IamClient Unit :=
  ⟨fun _ _ => throwM (.clientError "EntityAlreadyExists"
     "Role with name already exists."),
   fun _ _ _ => pureM (),
   fun _ => throwM (.clientError "EntityAlreadyExists"
     "Instance Profile already exists."),
   fun _ _ => throwM (.clientError "LimitExceeded"
     "Cannot exceed quota for InstanceProfilesPerRole."),
   fun _ => pureM "arn"⟩

/-- IAM client where role, instance profile and attachment all already
exist, reporting the codes the Airflow script tolerates. -/
def allDupAirflowIamClient : IamClient Unit :=
  ⟨fun _ _ => throwM (.clientError "EntityAlreadyExists"
     "Role with name already exists."),
   fun _ _ _ => pureM (),
   fun _ => throwM (.clientError "EntityAlreadyExists"
     "Instance Profile already exists."),
   fun _ _ => throwM (.clientError "EntityAlreadyExists"
     "Role already attached."),
   fun _ => pureM "arn"⟩

/-- Claim C4 as amended: the ensure/create routines for security group,
key pair, IAM role and instance profile, and the Airflow bucket ensure
all recover the provider's already-exists condition locally and continue
with the existing resource — but the standalone S3 bucket creation
script does not: any `ClientError` from its create call, including
bucket-already-exists, is fatal and becomes `SystemExit(1)`. -/
theorem duplicate_recovery_amended :
    (ensure_security_group dupFoundSgClient "pf1-rest-sg" "vpc-1" ()).result =
      .ok (.reused "sg-existing") ∧
    (create_key_pair_rest dupKpClient "pf1-rest-key" "pf1-rest-key.pem" emptyFs).result =
      .ok () ∧
    (create_key_pair_airflow dupKpClient "pf1-airflow-key" "pf1-airflow-key.pem" emptyFs).result =
      .ok () ∧
    (create_key_pair_instance dupKpClient "pf1-ec2-key" "pf1-ec2-key.pem" emptyFs).result =
      .ok () ∧
    (ensure_role_and_profile allDupIamClient
      "pf1-ec2-s3-role" "pf1-ec2-s3-profile" "my-demo-bucket-123" ()).result =
      .ok "pf1-ec2-s3-profile" ∧
    (ensure_iam_role_and_profile allDupAirflowIamClient
      "pf1-airflow-ec2-role" "deploy-dag-1234" ()).result =
      .ok "pf1-airflow-ec2-role-profile" ∧
    (ensure_bucket ownedS3Client "deploy-dag-1234" "eu-central-1" ()).result = .ok () ∧
    (create_bucket_script ownedS3Client "my-demo-bucket-123" "eu-central-1" ()).result =
      .error (.systemExit 1) :=
  ⟨rfl, rfl, rfl, rfl, rfl, rfl, rfl, rfl⟩

/-! ## Public subnet lookup

Embeddings of `find_public_subnet` from `ec2_instance/create_instance.py`
(lines 92–113) and `REST_SRV_setup/create_REST.py` (lines 90–108): same
control flow, different messages. -/

/-- One subnet as the control plane stores it. -/
structure Subnet where
  subnetId : String
  vpcId : String
  tags : List (String × String)
deriving Repr, DecidableEq

/-- Does a subnet match the filter pair vpc-id = `vpc_id` and
tag `Tier` = `public`? -/
def subnetMatches (vpc_id : String) (sn : Subnet) : Bool :=
  sn.vpcId == vpc_id && sn.tags.any (fun t => t.1 == "Tier" && t.2 == "public")

/-- The slice of the boto3 EC2 client used by `find_public_subnet`:
`describe_subnets` with the vpc-id and tag:Tier=public filters. -/
structure SubnetClient (σ : Type) where
  describe_subnets : String → M σ (List Subnet)

/-- `find_public_subnet(ec2_client, vpc_id)` from
`REST_SRV_setup/create_REST.py`: exactly-one semantics — `ValueError`
on zero matches and on more than one; otherwise `subnets[0]["SubnetId"]`. -/
def find_public_subnet_rest {σ : Type} (c : SubnetClient σ)
    (vpc_id : String) : M σ String := do
  let subnets ← c.describe_subnets vpc_id
  if subnets.isEmpty then
    throwM (.valueError "No subnet tagged Tier=public found.")
  else if subnets.length > 1 then
    throwM (.valueError ("Expected single public subnet but found " ++
      toString subnets.length ++
      ". Tag only one with Tier=public or specify a subnet explicitly."))
  else
    match subnets.head? with
    | some sn => do
      printM ("Using public subnet: " ++ sn.subnetId)
      pure sn.subnetId
    | none => throwM .indexError

/-- `find_public_subnet(ec2_client, vpc_id)` from
`ec2_instance/create_instance.py`: identical control flow with its own
messages. -/
def find_public_subnet_instance {σ : Type} (c : SubnetClient σ)
    (vpc_id : String) : M σ String := do
  let subnets ← c.describe_subnets vpc_id
  if subnets.isEmpty then
    throwM (.valueError "No subnet tagged Tier=public found in the VPC.")
  else if subnets.length > 1 then
    throwM (.valueError ("Expected a single public subnet but found " ++
      toString subnets.length ++ ". Pass --subnet-id explicitly to disambiguate."))
  else
    match subnets.head? with
    | some sn => do
      printM ("Identified public subnet: " ++ sn.subnetId)
      pure sn.subnetId
    | none => throwM .indexError

/-- In-memory control-plane client for subnets: the state holds the
stored subnets, `describe_subnets` filters them. -/
def awsSubnetClient : SubnetClient (List Subnet) :=
  ⟨fun vpc_id => fun subs => ⟨.ok (subs.filter (subnetMatches vpc_id)), subs, []⟩⟩

/-- Claim C9: both `find_public_subnet` versions have exact-one
semantics over the vpc-id and tag Tier=public filters — the unique
match's SubnetId is returned, zero matches raise `ValueError`, and two
or more matches raise `ValueError` (never silently picking one). -/
theorem find_public_subnet_exact_one (subs : List Subnet) (vpc_id : String) :
    (∀ sn, subs.filter (subnetMatches vpc_id) = [sn] →
      find_public_subnet_rest awsSubnetClient vpc_id subs =
        ⟨.ok sn.subnetId, subs, [.out ("Using public subnet: " ++ sn.subnetId)]⟩ ∧
      find_public_subnet_instance awsSubnetClient vpc_id subs =
        ⟨.ok sn.subnetId, subs, [.out ("Identified public subnet: " ++ sn.subnetId)]⟩) ∧
    (subs.filter (subnetMatches vpc_id) = [] →
      (find_public_subnet_rest awsSubnetClient vpc_id subs).result =
        .error (.valueError "No subnet tagged Tier=public found.") ∧
      (find_public_subnet_instance awsSubnetClient vpc_id subs).result =
        .error (.valueError "No subnet tagged Tier=public found in the VPC.")) ∧
    (∀ sn1 sn2 rest, subs.filter (subnetMatches vpc_id) = sn1 :: sn2 :: rest →
      (∃ msg, (find_public_subnet_rest awsSubnetClient vpc_id subs).result =
        .error (.valueError msg)) ∧
      (∃ msg, (find_public_subnet_instance awsSubnetClient vpc_id subs).result =
        .error (.valueError msg))) := by
  refine ⟨?_, ?_, ?_⟩
  · intro sn hone
    constructor <;>
      simp [find_public_subnet_rest, find_public_subnet_instance, awsSubnetClient,
        bindM, bind, pure, pureM, throwM, printM, hone]
  · intro hzero
    constructor <;>
      simp [find_public_subnet_rest, find_public_subnet_instance, awsSubnetClient,
        bindM, bind, pure, pureM, throwM, hzero]
  · intro sn1 sn2 rest hmany
    refine ⟨⟨"Expected single public subnet but found " ++
        toString (sn1 :: sn2 :: rest).length ++
        ". Tag only one with Tier=public or specify a subnet explicitly.", ?_⟩,
      ⟨"Expected a single public subnet but found " ++
        toString (sn1 :: sn2 :: rest).length ++
        ". Pass --subnet-id explicitly to disambiguate.", ?_⟩⟩ <;>
      simp [find_public_subnet_rest, find_public_subnet_instance, awsSubnetClient,
        bindM, bind, pure, pureM, throwM, hmany]

theorem find_public_subnet_exact_one_witness :
    ([⟨"subnet-pub", "vpc-1", [("Tier", "public")]⟩,
      ⟨"subnet-priv", "vpc-1", [("Tier", "private")]⟩] : List Subnet).filter
        (subnetMatches "vpc-1") = [⟨"subnet-pub", "vpc-1", [("Tier", "public")]⟩] ∧
    find_public_subnet_rest awsSubnetClient "vpc-1"
        [⟨"subnet-pub", "vpc-1", [("Tier", "public")]⟩,
         ⟨"subnet-priv", "vpc-1", [("Tier", "private")]⟩] =
      ⟨.ok "subnet-pub",
       [⟨"subnet-pub", "vpc-1", [("Tier", "public")]⟩,
        ⟨"subnet-priv", "vpc-1", [("Tier", "private")]⟩],
       [.out "Using public subnet: subnet-pub"]⟩ :=
  ⟨by decide,
   ((find_public_subnet_exact_one
      [⟨"subnet-pub", "vpc-1", [("Tier", "public")]⟩,
       ⟨"subnet-priv", "vpc-1", [("Tier", "private")]⟩] "vpc-1").1
     ⟨"subnet-pub", "vpc-1", [("Tier", "public")]⟩ (by decide)).1⟩
